import Mathlib

/-!
Verification development for `colocgraph.py`, a batch plotter: it walks a
directory for `.txt` files, loads each as a tab-separated table, and renders
one line chart per file.

Shallow embedding notes:
* Python exceptions are modelled by `PyErr`; a function that can raise returns
  `Except PyErr _`, and a top-level run returns the events it performed plus
  `Option PyErr` (the exception that propagated, if any).
* `os.walk` is an OS primitive; its top-down output stream (a list of
  `(dirpath, filenames)` pairs) is taken as the input of `get_txt_files`, with
  `none` standing for a directory access that raises.
* An input file is a list of lines, each line the list of its tab-separated
  cells; a cell is `Option String`, `none` for a missing field (pandas NaN).
* matplotlib calls are recorded as an event trace (`Ev`): figure creation,
  each `plt.plot` call with its data/color/label, axis labels, legend, and the
  `savefig` write.
-/

namespace Colocgraph

/-- Python exception kinds relevant to this program. -/
inductive PyErr where
  | valueError
  | indexError
  | attributeError
  deriving DecidableEq, Repr

/-- A loaded pandas DataFrame: ordered column headers and rows of cell
values (all present, since `load_txt` drops NaN rows). -/
structure DataFrame where
  columns : List String
  rows : List (List String)
  deriving DecidableEq, Repr

/-- What reading one file path yields: its parsed lines, a missing file, or
some other read error. -/
inductive FileContent where
  | ok (lines : List (List (Option String)))
  | notFound
  | readError
  deriving DecidableEq, Repr

/-- `int(c)` for a single character `c` (src line 89): the ASCII-digit case of
CPython `int`; any other character raises `ValueError`. -/
def pyIntChar (c : Char) : Except PyErr Nat :=
  if c.isDigit then .ok (c.toNat - '0'.toNat) else .error PyErr.valueError

/-- `[ int( i ) for i in column_order ]` (src line 89): left to right, the
first non-digit raises. -/
def mapIntList : List Char → Except PyErr (List Nat)
  | [] => .ok []
  | c :: rest =>
    match pyIntChar c with
    | .error e => .error e
    | .ok n =>
      match mapIntList rest with
      | .error e => .error e
      | .ok ns => .ok (n :: ns)

/-- Python sequence indexing `xs[i]`: a negative index counts from the end;
out of range raises `IndexError`. -/
def pyIndex {α : Type} (xs : List α) (i : Int) : Except PyErr α :=
  let j : Int := if i < 0 then i + xs.length else i
  if h : 0 ≤ j ∧ j.toNat < xs.length then .ok (xs.get ⟨j.toNat, h.2⟩)
  else .error PyErr.indexError

/-- Python `s.endswith(sfx)`, computed on the character lists. -/
def pyEndsWith (s sfx : String) : Bool :=
  List.isSuffixOf sfx.data s.data

/-- `os.path.join(root, file)` for the plain relative-name case. -/
def pathJoin (a b : String) : String :=
  if a = "" then b else a ++ "/" ++ b

/-- `os.path.basename(p)`: the part after the last slash, computed on the
character list. -/
def baseName (p : String) : String :=
  String.mk ((p.data.reverse.takeWhile (fun c => c ≠ '/')).reverse)

/-- The body of the `os.walk` loop in `get_txt_files` (src lines 23-26): for
each `(root, files)` pair, append `join(root, file)` for files ending in
`.txt`, in order. -/
def gatherTxt : List (String × List String) → List String
  | [] => []
  | (root, files) :: rest =>
    (files.filter (fun f => pyEndsWith f ".txt")).map (fun f => pathJoin root f)
      ++ gatherTxt rest

/-- `get_txt_files` (src lines 12-31): filter the walk stream; if the
directory access raises (`none`), the exception is caught and the (empty)
accumulator is returned. -/
def get_txt_files (walkOut : Option (List (String × List String))) : List String :=
  match walkOut with
  | none => []
  | some entries => gatherTxt entries

/-- A row is kept by `dropna()` iff no cell is missing. -/
def isFullRow (r : List (Option String)) : Bool :=
  r.all Option.isSome

/-- `load_txt` (src lines 33-52): `pd.read_csv(sep='\t', skiprows=1)` then
`.dropna()`; any exception is caught and `None` is returned. Pandas details
modelled: the first line is skipped, the next is the header; no remaining
line at all is an `EmptyDataError` (caught, `None`); a data row with more
fields than the header is a tokenizer error (caught, `None`); shorter rows
are padded with missing values; `dropna` removes rows with any missing
cell. A missing header cell would be auto-named, modelled by `"Unnamed"`. -/
def load_txt (fc : FileContent) : Option DataFrame :=
  match fc with
  | .notFound => none
  | .readError => none
  | .ok lines =>
    match lines.drop 1 with
    | [] => none
    | hdr :: dataRows =>
      if dataRows.any (fun r => hdr.length < r.length) then none
      else
        let padded := dataRows.map
          (fun r => r ++ List.replicate (hdr.length - r.length) (none : Option String))
        some { columns := hdr.map (fun c => c.getD "Unnamed"),
               rows := (padded.filter isFullRow).map (fun r => r.map (fun c => c.getD "")) }

/-- `df.iloc[:, i]` for a nonnegative position `i`: the column of values at
position `i`, `IndexError` when out of range. -/
def dfIlocCol (d : DataFrame) (i : Nat) : Except PyErr (List String) :=
  if i < d.columns.length then .ok (d.rows.map (fun r => r.getD i ""))
  else .error PyErr.indexError

/-- Rendering events, in program order. -/
inductive Ev where
  | figure
  | draw (colIdx : Nat) (x y : List String) (color lab : String)
  | xlabel (l : Option String)
  | ylabel (l : Option String)
  | legendEv
  | savefig (fname : String) (fmt : String)
  deriving DecidableEq, Repr

/-- Recognizes the file-write event. -/
def isSavefig : Ev → Bool
  | .savefig _ _ => true
  | _ => false

/-- One `plt.plot(df.iloc[:, 0], df.iloc[:, col_idx], color=colors[col_idx-1],
label=df.columns[col_idx-1])` call (src lines 98-103): arguments are
evaluated in order, and any raising lookup aborts before a series is
drawn. -/
def drawCall (d : DataFrame) (colors : List String) (col_idx : Nat) : Except PyErr Ev :=
  match dfIlocCol d 0 with
  | .error e => .error e
  | .ok x =>
    match dfIlocCol d col_idx with
    | .error e => .error e
    | .ok y =>
      match pyIndex colors ((col_idx : Int) - 1) with
      | .error e => .error e
      | .ok c =>
        match pyIndex d.columns ((col_idx : Int) - 1) with
        | .error e => .error e
        | .ok lab => .ok (Ev.draw col_idx x y c lab)

/-- The plotting loop of `plot_df` (src lines 94-103). `df` is `none` when
Python `None` was passed: evaluating `len( df.columns )` in the guard then
raises `AttributeError` at the first iteration. Returns the draw events
performed and the exception that stopped the loop, if any. -/
def plotLoop (df : Option DataFrame) (colors : List String) :
    List Nat → List Ev × Option PyErr
  | [] => ([], none)
  | col_idx :: rest =>
    match df with
    | none => ([], some PyErr.attributeError)
    | some d =>
      if (col_idx : Int) ≤ (d.columns.length : Int) - 1 then
        match drawCall d colors col_idx with
        | .error e => ([], some e)
        | .ok ev =>
          ((ev :: (plotLoop df colors rest).1), (plotLoop df colors rest).2)
      else plotLoop df colors rest

/-- `plot_df` (src lines 54-114). Styling scalars (`width`, `height`,
`font_size`) do not affect which events occur and are omitted. On success the
trace ends with `savefig(f"{image_file_name}.{image_data_type}")`
(src line 113). -/
def plot_df (df : Option DataFrame) (image_file_name image_data_type : String)
    (x_label y_label : Option String) (colors : List String)
    (column_order : List Char) (legend : Bool) : List Ev × Option PyErr :=
  match mapIntList column_order with
  | .error e => ([], some e)
  | .ok column_indices =>
    match plotLoop df colors column_indices with
    | (evs, some e) => (Ev.figure :: evs, some e)
    | (evs, none) =>
      ((Ev.figure :: evs)
        ++ [Ev.xlabel x_label, Ev.ylabel y_label]
        ++ (if legend then [Ev.legendEv] else [])
        ++ [Ev.savefig (image_file_name ++ "." ++ image_data_type) image_data_type],
       none)

/-- The loop of `main` (src lines 155-171): load each file and call
`plot_df` on the result — unconditionally, even when `load_txt` returned
`None`. An exception from `plot_df` propagates and aborts the batch. -/
def mainLoop (content : String → FileContent) (image_data_type : String)
    (x_label y_label : Option String) (colors : List String)
    (column_order : List Char) (legend : Bool) :
    List String → List Ev × Option PyErr
  | [] => ([], none)
  | tf :: rest =>
    match plot_df (load_txt (content tf)) (baseName tf) image_data_type x_label
        y_label colors column_order legend with
    | (evs, some e) => (evs, some e)
    | (evs, none) =>
      (evs ++ (mainLoop content image_data_type x_label y_label colors
          column_order legend rest).1,
       (mainLoop content image_data_type x_label y_label colors column_order
          legend rest).2)

/-- `main` (src lines 116-171): discover, then load-and-plot each file.
`walkOut` is the `os.walk` stream of the input directory, `content` the
outcome of reading each path. -/
def main (walkOut : Option (List (String × List String)))
    (content : String → FileContent) (image_data_type : String)
    (x_label y_label : Option String) (colors : List String)
    (column_order : List Char) (legend : Bool) : List Ev × Option PyErr :=
  mainLoop content image_data_type x_label y_label colors column_order legend
    (get_txt_files walkOut)

/-- The parsed command-line arguments (src lines 177-187). -/
structure Args where
  input_dir : String
  image_data_type : Option String
  order : String
  width : Int
  height : Int
  font_size : Int
  legend : Bool
  x_label : Option String
  y_label : Option String
  deriving DecidableEq, Repr

/-- The `__main__` call of `main` (src lines 190-197): it forwards only
`dir`, `width`, `height`, `font_size`, `legend` and `column_order`; the
parsed `image_data_type`, `x_label` and `y_label` are never passed, so
`main`'s own defaults (`"svg"`, `None`, `None`) and the default color list
apply. -/
def cliMain (a : Args) (walkOut : Option (List (String × List String)))
    (content : String → FileContent) : List Ev × Option PyErr :=
  main walkOut content "svg" none none ["red", "green", "blue"] a.order.toList
    a.legend

/-! ### Concrete fixtures -/

/-- A four-column table with one data row, as loaded from a file with header
`D A B C` and data row `0 1 2 3`. -/
def df4 : DataFrame :=
  { columns := ["D", "A", "B", "C"], rows := [["0", "1", "2", "3"]] }

/-- A six-column table with one data row. -/
def df6 : DataFrame :=
  { columns := ["c0", "c1", "c2", "c3", "c4", "c5"],
    rows := [["0", "1", "2", "3", "4", "5"]] }

/-- Walk stream of a directory `d` holding `bad.txt` then `good.txt`. -/
def walkBadGood : List (String × List String) := [("d", ["bad.txt", "good.txt"])]

/-- File contents for `walkBadGood`: `good.txt` is a valid two-column file,
everything else is missing. -/
def contentBadGood : String → FileContent := fun p =>
  if p = "d/good.txt"
  then .ok [[some "t"], [some "D", some "A"], [some "1", some "2"]]
  else .notFound

/-- Walk stream of a directory `d` holding only `sample.txt`. -/
def walkSample : List (String × List String) := [("d", ["sample.txt"])]

/-- File contents for `walkSample`: a title line, header `D A B C`, and one
data row. -/
def contentSample : String → FileContent := fun _ =>
  .ok [[some "t"], [some "D", some "A", some "B", some "C"],
       [some "0", some "1", some "2", some "3"]]

/-- A CLI invocation that requests `png` output and both axis labels. -/
def argsPng : Args :=
  { input_dir := "d", image_data_type := some "png", order := "312",
    width := 4, height := 2, font_size := 9, legend := false,
    x_label := some "XX", y_label := some "YY" }

/-! ### Helper lemmas -/

theorem drawCall_ok_shape (d : DataFrame) (colors : List String) (i : Nat) (ev : Ev)
    (h : drawCall d colors i = .ok ev) :
    ∃ x y c l, ev = Ev.draw i x y c l ∧ pyIndex colors ((i : Int) - 1) = .ok c := by
  unfold drawCall at h
  repeat' split at h
  all_goals try exact Except.noConfusion h
  injection h with h
  subst h
  exact ⟨_, _, _, _, rfl, by assumption⟩

theorem plotLoop_mem (df : Option DataFrame) (colors : List String) (idxs : List Nat)
    (ev : Ev) (hev : ev ∈ (plotLoop df colors idxs).1) :
    ∃ i ∈ idxs, ∃ x y c l, ev = Ev.draw i x y c l ∧
      pyIndex colors ((i : Int) - 1) = .ok c := by
  induction idxs with
  | nil => simp [plotLoop] at hev
  | cons a rest ih =>
    cases df with
    | none => simp [plotLoop] at hev
    | some d =>
      by_cases hg : (a : Int) ≤ (d.columns.length : Int) - 1
      · simp only [plotLoop, if_pos hg] at hev
        cases hd : drawCall d colors a with
        | error e => rw [hd] at hev; simp at hev
        | ok ev0 =>
          rw [hd] at hev
          simp at hev
          rcases hev with rfl | hev
          · obtain ⟨x, y, c, l, rfl, hc⟩ := drawCall_ok_shape d colors a _ hd
            exact ⟨a, List.mem_cons_self _ _, x, y, c, l, rfl, hc⟩
          · obtain ⟨i, hi, rest'⟩ := ih hev
            exact ⟨i, List.mem_cons_of_mem _ hi, rest'⟩
      · simp only [plotLoop, if_neg hg] at hev
        obtain ⟨i, hi, rest'⟩ := ih hev
        exact ⟨i, List.mem_cons_of_mem _ hi, rest'⟩

theorem plot_df_eq_err_parse (df : Option DataFrame) (nm fmt : String)
    (xl yl : Option String) (colors : List String) (order : List Char) (lg : Bool)
    (e : PyErr) (hm : mapIntList order = .error e) :
    plot_df df nm fmt xl yl colors order lg = ([], some e) := by
  simp only [plot_df, hm]

theorem plot_df_eq_err_loop (df : Option DataFrame) (nm fmt : String)
    (xl yl : Option String) (colors : List String) (order : List Char) (lg : Bool)
    (idxs : List Nat) (evs : List Ev) (e : PyErr)
    (hm : mapIntList order = .ok idxs)
    (hp : plotLoop df colors idxs = (evs, some e)) :
    plot_df df nm fmt xl yl colors order lg = (Ev.figure :: evs, some e) := by
  simp only [plot_df, hm, hp]

theorem plot_df_eq_ok (df : Option DataFrame) (nm fmt : String)
    (xl yl : Option String) (colors : List String) (order : List Char) (lg : Bool)
    (idxs : List Nat) (evs : List Ev)
    (hm : mapIntList order = .ok idxs)
    (hp : plotLoop df colors idxs = (evs, none)) :
    plot_df df nm fmt xl yl colors order lg
      = ((Ev.figure :: evs) ++ [Ev.xlabel xl, Ev.ylabel yl]
          ++ (if lg then [Ev.legendEv] else [])
          ++ [Ev.savefig (nm ++ "." ++ fmt) fmt], none) := by
  simp only [plot_df, hm, hp]

theorem plot_df_ok_savefig (df : Option DataFrame) (nm fmt : String)
    (xl yl : Option String) (colors : List String) (order : List Char) (lg : Bool)
    (h : (plot_df df nm fmt xl yl colors order lg).2 = none) :
    (plot_df df nm fmt xl yl colors order lg).1.filter isSavefig
      = [Ev.savefig (nm ++ "." ++ fmt) fmt] := by
  rcases hm : mapIntList order with e | idxs
  · rw [plot_df_eq_err_parse df nm fmt xl yl colors order lg e hm] at h
    simp at h
  · rcases hp : plotLoop df colors idxs with ⟨evs, err⟩
    cases err with
    | some e =>
      rw [plot_df_eq_err_loop df nm fmt xl yl colors order lg idxs evs e hm hp]
        at h
      simp at h
    | none =>
      rw [plot_df_eq_ok df nm fmt xl yl colors order lg idxs evs hm hp]
      have hbody : evs.filter isSavefig = [] := by
        rw [List.filter_eq_nil_iff]
        intro ev hev
        have hev' : ev ∈ (plotLoop df colors idxs).1 := by rw [hp]; exact hev
        obtain ⟨i, _, x, y, c, l, rfl, _⟩ := plotLoop_mem df colors idxs ev hev'
        simp [isSavefig]
      cases lg <;>
        simp [List.filter_append, List.filter_cons, hbody, isSavefig]

theorem mainLoop_eq_err (content : String → FileContent) (fmt : String)
    (xl yl : Option String) (colors : List String) (order : List Char) (lg : Bool)
    (tf : String) (rest : List String) (evs : List Ev) (e : PyErr)
    (hp : plot_df (load_txt (content tf)) (baseName tf) fmt xl yl colors order lg
      = (evs, some e)) :
    mainLoop content fmt xl yl colors order lg (tf :: rest) = (evs, some e) := by
  simp only [mainLoop, hp]

theorem mainLoop_eq_ok (content : String → FileContent) (fmt : String)
    (xl yl : Option String) (colors : List String) (order : List Char) (lg : Bool)
    (tf : String) (rest : List String) (evs : List Ev)
    (hp : plot_df (load_txt (content tf)) (baseName tf) fmt xl yl colors order lg
      = (evs, none)) :
    mainLoop content fmt xl yl colors order lg (tf :: rest)
      = (evs ++ (mainLoop content fmt xl yl colors order lg rest).1,
         (mainLoop content fmt xl yl colors order lg rest).2) := by
  conv_lhs => rw [mainLoop.eq_def]
  simp only [hp]

theorem pyIndex_ok_exists (xs : List String) (i : Int)
    (hlow : -(xs.length : Int) ≤ i) (hhigh : i < (xs.length : Int)) :
    ∃ v, pyIndex xs i = .ok v := by
  simp only [pyIndex]
  split
  · split
    · exact ⟨_, rfl⟩
    · rename_i hneg hcond
      exfalso
      rcases not_and_or.mp hcond with h' | h' <;> omega
  · split
    · exact ⟨_, rfl⟩
    · rename_i hneg hcond
      exfalso
      rcases not_and_or.mp hcond with h' | h' <;> omega

theorem pyIndex_neg_one (xs : List String) (h : 0 < xs.length) :
    pyIndex xs (-1) = .ok (xs.getD (xs.length - 1) "") := by
  simp only [pyIndex]
  split
  · split
    · rename_i hc
      have hgd : xs.getD (xs.length - 1) ""
          = xs.get ⟨((-1:Int) + (xs.length : Int)).toNat, hc.2⟩ := by
        rw [List.getD_eq_getElem?_getD,
          List.getElem?_eq_getElem (show xs.length - 1 < xs.length by omega)]
        simp only [Option.getD_some, List.get_eq_getElem]
        congr 1
        omega
      rw [hgd]
    · rename_i hcond
      exfalso
      rcases not_and_or.mp hcond with h' | h' <;> omega
  · rename_i hneg
    exfalso
    omega

theorem pyIndex_err_of_ge (xs : List String) (i : Int) (h0 : 0 ≤ i)
    (h : (xs.length : Int) ≤ i) :
    pyIndex xs i = .error PyErr.indexError := by
  simp only [pyIndex]
  split
  · rename_i hneg
    exfalso
    omega
  · split
    · rename_i hc
      exfalso
      omega
    · rfl

theorem dfIlocCol_ok (d : DataFrame) (i : Nat) (h : i < d.columns.length) :
    dfIlocCol d i = .ok (d.rows.map (fun r => r.getD i "")) := by
  simp only [dfIlocCol, if_pos h]

theorem drawCall_eq_ok (d : DataFrame) (colors : List String) (i : Nat)
    (hi : i < d.columns.length) (cv lv : String)
    (hc : pyIndex colors ((i : Int) - 1) = .ok cv)
    (hl : pyIndex d.columns ((i : Int) - 1) = .ok lv) :
    drawCall d colors i
      = .ok (Ev.draw i (d.rows.map (fun r => r.getD 0 ""))
          (d.rows.map (fun r => r.getD i "")) cv lv) := by
  have h0 : 0 < d.columns.length := Nat.lt_of_le_of_lt (Nat.zero_le i) hi
  simp only [drawCall, dfIlocCol_ok d 0 h0, dfIlocCol_ok d i hi, hc, hl]

theorem drawCall_eq_err_color (d : DataFrame) (colors : List String) (i : Nat)
    (e : PyErr) (hi : i < d.columns.length)
    (hc : pyIndex colors ((i : Int) - 1) = .error e) :
    drawCall d colors i = .error e := by
  have h0 : 0 < d.columns.length := Nat.lt_of_le_of_lt (Nat.zero_le i) hi
  simp only [drawCall, dfIlocCol_ok d 0 h0, dfIlocCol_ok d i hi, hc]

theorem mapIntList_single (c : Char) (d : Nat) (hc : pyIntChar c = .ok d) :
    mapIntList [c] = .ok [d] := by
  simp only [mapIntList, hc]

theorem plotLoop_single_skip (df : DataFrame) (colors : List String) (d : Nat)
    (h : ¬ ((d : Int) ≤ (df.columns.length : Int) - 1)) :
    plotLoop (some df) colors [d] = ([], none) := by
  simp only [plotLoop, if_neg h]

theorem plotLoop_single_draw (df : DataFrame) (colors : List String) (d : Nat)
    (ev : Ev) (h : (d : Int) ≤ (df.columns.length : Int) - 1)
    (hd : drawCall df colors d = .ok ev) :
    plotLoop (some df) colors [d] = ([ev], none) := by
  simp only [plotLoop, if_pos h, hd]

theorem mainLoop_savefigs (content : String → FileContent) (fmt : String)
    (xl yl : Option String) (colors : List String) (order : List Char) (lg : Bool)
    (files : List String)
    (h : (mainLoop content fmt xl yl colors order lg files).2 = none) :
    (mainLoop content fmt xl yl colors order lg files).1.filter isSavefig
      = files.map (fun tf => Ev.savefig (baseName tf ++ "." ++ fmt) fmt) := by
  induction files with
  | nil => simp [mainLoop]
  | cons tf rest ih =>
    rcases hp : plot_df (load_txt (content tf)) (baseName tf) fmt xl yl colors
        order lg with ⟨evs, err⟩
    cases err with
    | some e =>
      rw [mainLoop_eq_err content fmt xl yl colors order lg tf rest evs e hp] at h
      simp at h
    | none =>
      rw [mainLoop_eq_ok content fmt xl yl colors order lg tf rest evs hp] at h ⊢
      have h1 : evs.filter isSavefig = [Ev.savefig (baseName tf ++ "." ++ fmt) fmt] := by
        have := plot_df_ok_savefig (load_txt (content tf)) (baseName tf) fmt xl yl
          colors order lg (by rw [hp])
        rw [hp] at this
        exact this
      rw [List.filter_append, h1, ih h, List.map_cons, List.singleton_append]

/-! ### Claim theorems -/

/-- C1: running `main` over a directory holding one unloadable file
(`bad.txt`, not found) and one valid file (`good.txt`) does not skip the
failed file: `load_txt` does return "no table" (`none`), but `main` passes it
to `plot_df` anyway, whose column-count guard raises `AttributeError`; the
batch aborts after creating one empty figure, writes no image, and never
reaches the valid file — refuting "the caller does not invoke the renderer
on that result and the batch continues". -/
theorem main_aborts_when_loader_returns_none :
    load_txt (contentBadGood "d/bad.txt") = none ∧
    main (some walkBadGood) contentBadGood "svg" none none
        ["red", "green", "blue"] ['3', '1', '2'] false
      = ([Ev.figure], some PyErr.attributeError) := by
  decide

/-- C3: a CLI invocation with `--image_data_type png`, `--x_label XX` and
`--y_label YY` still writes an `svg` file and leaves both axis labels unset,
because the `__main__` block never forwards these three parsed arguments to
`main`. -/
theorem cli_format_and_labels_not_forwarded :
    argsPng.image_data_type = some "png" ∧
    argsPng.x_label = some "XX" ∧
    argsPng.y_label = some "YY" ∧
    cliMain argsPng (some walkSample) contentSample
      = ([Ev.figure,
          Ev.draw 3 ["0"] ["3"] "blue" "B",
          Ev.draw 1 ["0"] ["1"] "red" "D",
          Ev.draw 2 ["0"] ["2"] "green" "A",
          Ev.xlabel none, Ev.ylabel none,
          Ev.savefig "sample.txt.svg" "svg"], none) := by
  decide

/-- C2 counterexample: input `d/sample.txt` with format `svg` yields the
output file name `sample.txt.svg`, not `sample.svg`: the base name keeps its
`.txt` extension and the format is appended, refuting "extension replaced by
the image format". -/
theorem main_appends_format_instead_of_replacing :
    (main (some walkSample) contentSample "svg" none none
        ["red", "green", "blue"] ['3', '1', '2'] false).1.filter isSavefig
      = [Ev.savefig "sample.txt.svg" "svg"] ∧
    Ev.savefig "sample.svg" "svg"
      ∉ (main (some walkSample) contentSample "svg" none none
          ["red", "green", "blue"] ['3', '1', '2'] false).1 := by
  decide

/-- C4 counterexample: on the four-column table `df4` with order `"3"`, the
drawn series carries the values `["3"]` of the column at position 3 (header
`"C"`), but its legend label is `"B"`, the header at position 2 — the data
column and the legend label do not refer to the same column. -/
theorem plot_label_mismatches_plotted_column :
    plot_df (some df4) "f" "svg" none none ["red", "green", "blue"] ['3'] false
      = ([Ev.figure, Ev.draw 3 ["0"] ["3"] "blue" "B",
          Ev.xlabel none, Ev.ylabel none, Ev.savefig "f.svg" "svg"], none) ∧
    df4.rows.map (fun r => r.getD 3 "") = [["3"]].head! ∧
    df4.columns.getD 3 "" = "C" ∧
    ("B" : String) ≠ "C" := by
  decide

/-- C2 (amended): in a run of `main` that raises no exception, exactly one
image file is written per discovered (hence successfully loaded) input file,
in discovery order, and each is named by appending a dot and the configured
image format to the input file's full base name — the base name's own
extension is kept, not replaced — so the write lands in the current working
directory. -/
theorem main_savefig_names (walkOut : Option (List (String × List String)))
    (content : String → FileContent) (fmt : String) (xl yl : Option String)
    (colors : List String) (order : List Char) (lg : Bool)
    (hok : (main walkOut content fmt xl yl colors order lg).2 = none) :
    (main walkOut content fmt xl yl colors order lg).1.filter isSavefig
      = (get_txt_files walkOut).map
          (fun tf => Ev.savefig (baseName tf ++ "." ++ fmt) fmt) := by
  unfold main at hok ⊢
  exact mainLoop_savefigs content fmt xl yl colors order lg
    (get_txt_files walkOut) hok

/-- C2 witness: the amended theorem applied to the concrete one-file run over
`d/sample.txt`. -/
theorem main_savefig_names_witness :
    (main (some walkSample) contentSample "svg" none none
        ["red", "green", "blue"] ['3', '1', '2'] false).1.filter isSavefig
      = (get_txt_files (some walkSample)).map
          (fun tf => Ev.savefig (baseName tf ++ "." ++ "svg") "svg") :=
  main_savefig_names (some walkSample) contentSample "svg" none none
    ["red", "green", "blue"] ['3', '1', '2'] false (by decide)

/-- C5 counterexample: on the four-column table `df4`, the digit `4` does not
exceed the column count (4 > 4 is false), yet the guard
`col_idx <= len(df.columns) - 1` skips it: rendering completes with no drawn
series — refuting "any d that does not exceed the column count produces a
drawn series". -/
theorem plot_skips_index_equal_to_column_count :
    plot_df (some df4) "f" "svg" none none ["red", "green", "blue"] ['4'] false
      = ([Ev.figure, Ev.xlabel none, Ev.ylabel none,
          Ev.savefig "f.svg" "svg"], none) ∧
    ¬ df4.columns.length < 4 := by
  decide

/-- C4 (amended): for a digit `d` of the column-selection order that selects
a drawable column, the series is drawn with the color at Python position
`d-1` of the color list and with the legend label taken from Python position
`d-1` of the header list — while the plotted values are those of the column
at 0-based position `d`. Label and color share the `d-1` offset, so the
legend label names the column before the one whose values are plotted, not
that column itself. -/
theorem plot_color_and_label_offsets (df : DataFrame) (nm fmt : String)
    (xl yl : Option String) (colors : List String) (lg : Bool) (c : Char)
    (d : Nat) (cv lv : String)
    (hc : pyIntChar c = .ok d)
    (hd : d < df.columns.length)
    (hcv : pyIndex colors ((d : Int) - 1) = .ok cv)
    (hlv : pyIndex df.columns ((d : Int) - 1) = .ok lv) :
    plot_df (some df) nm fmt xl yl colors [c] lg
      = ([Ev.figure,
          Ev.draw d (df.rows.map (fun r => r.getD 0 ""))
            (df.rows.map (fun r => r.getD d "")) cv lv]
          ++ [Ev.xlabel xl, Ev.ylabel yl]
          ++ (if lg then [Ev.legendEv] else [])
          ++ [Ev.savefig (nm ++ "." ++ fmt) fmt], none) := by
  exact plot_df_eq_ok (some df) nm fmt xl yl colors [c] lg [d] _
    (mapIntList_single c d hc)
    (plotLoop_single_draw df colors d _ (by omega)
      (drawCall_eq_ok df colors d hd cv lv hcv hlv))

/-- C4 witness: the amended theorem applied to `df4`, digit `3`: the values
of column 3 are drawn with color `"blue"` and label `"B"`, the header at
position 2. -/
theorem plot_color_and_label_offsets_witness :
    plot_df (some df4) "f" "svg" none none ["red", "green", "blue"] ['3'] false
      = ([Ev.figure,
          Ev.draw 3 (df4.rows.map (fun r => r.getD 0 ""))
            (df4.rows.map (fun r => r.getD 3 "")) "blue" "B"]
          ++ [Ev.xlabel none, Ev.ylabel none]
          ++ (if false then [Ev.legendEv] else [])
          ++ [Ev.savefig ("f" ++ "." ++ "svg") "svg"], none) :=
  plot_color_and_label_offsets df4 "f" "svg" none none ["red", "green", "blue"]
    false '3' 3 "blue" "B" rfl (by decide) rfl rfl

/-- C5 (amended): a digit `d` of the column-selection order is skipped
silently exactly when it is at least the table's column count (the guard is
`d <= column count - 1`, so `d` equal to the column count is also skipped,
not only `d` exceeding it); any `d` strictly below the column count draws a
series, provided the color lookup at Python position `d-1` succeeds. -/
theorem plot_guard_boundary (df : DataFrame) (nm fmt : String)
    (xl yl : Option String) (colors : List String) (lg : Bool) (c : Char)
    (d : Nat) (hc : pyIntChar c = .ok d) :
    (df.columns.length ≤ d →
      plot_df (some df) nm fmt xl yl colors [c] lg
        = ([Ev.figure]
            ++ [Ev.xlabel xl, Ev.ylabel yl]
            ++ (if lg then [Ev.legendEv] else [])
            ++ [Ev.savefig (nm ++ "." ++ fmt) fmt], none))
  ∧ (d < df.columns.length →
      ∀ cv, pyIndex colors ((d : Int) - 1) = .ok cv →
      ∃ lv, plot_df (some df) nm fmt xl yl colors [c] lg
        = ([Ev.figure,
            Ev.draw d (df.rows.map (fun r => r.getD 0 ""))
              (df.rows.map (fun r => r.getD d "")) cv lv]
            ++ [Ev.xlabel xl, Ev.ylabel yl]
            ++ (if lg then [Ev.legendEv] else [])
            ++ [Ev.savefig (nm ++ "." ++ fmt) fmt], none)) := by
  constructor
  · intro hge
    exact plot_df_eq_ok (some df) nm fmt xl yl colors [c] lg [d] _
      (mapIntList_single c d hc)
      (plotLoop_single_skip df colors d (by omega))
  · intro hlt cv hcv
    obtain ⟨lv, hlv⟩ := pyIndex_ok_exists df.columns ((d : Int) - 1)
      (by omega) (by omega)
    exact ⟨lv, plot_color_and_label_offsets df nm fmt xl yl colors lg
      c d cv lv hc hlt hcv hlv⟩

/-- C5 witness: the amended theorem applied to `df4` on both sides of the
boundary: digit `9` (at least the column count 4) is skipped without error,
and digit `2` (below the column count) draws a series. -/
theorem plot_guard_boundary_witness :
    (plot_df (some df4) "f" "svg" none none ["red", "green", "blue"] ['9'] false
      = ([Ev.figure]
          ++ [Ev.xlabel none, Ev.ylabel none]
          ++ (if false then [Ev.legendEv] else [])
          ++ [Ev.savefig ("f" ++ "." ++ "svg") "svg"], none))
  ∧ (∃ lv, plot_df (some df4) "f" "svg" none none ["red", "green", "blue"]
        ['2'] false
      = ([Ev.figure,
          Ev.draw 2 (df4.rows.map (fun r => r.getD 0 ""))
            (df4.rows.map (fun r => r.getD 2 "")) "green" lv]
          ++ [Ev.xlabel none, Ev.ylabel none]
          ++ (if false then [Ev.legendEv] else [])
          ++ [Ev.savefig ("f" ++ "." ++ "svg") "svg"], none)) :=
  ⟨(plot_guard_boundary df4 "f" "svg" none none ["red", "green", "blue"] false
      '9' 9 rfl).1 (by decide),
   (plot_guard_boundary df4 "f" "svg" none none ["red", "green", "blue"] false
      '2' 2 rfl).2 (by decide) "green" rfl⟩

theorem mapIntList_err_of_nondigit (order : List Char) (c : Char)
    (hc : c ∈ order) (hnd : c.isDigit = false) :
    mapIntList order = .error PyErr.valueError := by
  induction order with
  | nil => simp at hc
  | cons a rest ih =>
    by_cases ha : a.isDigit
    · have hc' : c ∈ rest := by
        rcases List.mem_cons.mp hc with rfl | h
        · rw [hnd] at ha; exact absurd ha (by simp)
        · exact h
      simp only [mapIntList, pyIntChar, if_pos ha, ih hc']
    · simp only [mapIntList, pyIntChar, if_neg ha]

/-- C9: if the column-selection order contains any character that is not a
decimal digit, `plot_df` raises a `ValueError` during the initial
`[int(i) for i in column_order]` conversion, before the figure is created
and before anything is written: the event trace is empty. (The model reads
`int` on a single character as the ASCII-digit case of CPython `int`, which
also accepts non-ASCII Unicode decimal digits; those count as digits here.) -/
theorem plot_nondigit_order_errors_early (df : Option DataFrame)
    (nm fmt : String) (xl yl : Option String) (colors : List String)
    (order : List Char) (lg : Bool) (c : Char)
    (hc : c ∈ order) (hnd : c.isDigit = false) :
    plot_df df nm fmt xl yl colors order lg = ([], some PyErr.valueError) :=
  plot_df_eq_err_parse df nm fmt xl yl colors order lg PyErr.valueError
    (mapIntList_err_of_nondigit order c hc hnd)

/-- C9 witness: the theorem applied to the order `"3x"` on `df4`: no figure,
no output file, a `ValueError`. -/
theorem plot_nondigit_order_errors_early_witness :
    plot_df (some df4) "f" "svg" none none ["red", "green", "blue"]
        ['3', 'x'] false
      = ([], some PyErr.valueError) :=
  plot_nondigit_order_errors_early (some df4) "f" "svg" none none
    ["red", "green", "blue"] ['3', 'x'] false 'x' (by decide) (by decide)

/-- C10: on a table with at least one column and a nonempty color list, the
digit `0` passes the guard (`0 <= column count - 1`) and draws the first
column against itself, colored with the last entry of the color list and
labeled with the last column's header, because the Python index `0 - 1 = -1`
wraps to the end of both lists. -/
theorem plot_digit_zero_draws_first_column (df : DataFrame) (nm fmt : String)
    (xl yl : Option String) (colors : List String) (lg : Bool)
    (hcols : 0 < df.columns.length) (hcolors : 0 < colors.length) :
    plot_df (some df) nm fmt xl yl colors ['0'] lg
      = ([Ev.figure,
          Ev.draw 0 (df.rows.map (fun r => r.getD 0 ""))
            (df.rows.map (fun r => r.getD 0 ""))
            (colors.getD (colors.length - 1) "")
            (df.columns.getD (df.columns.length - 1) "")]
          ++ [Ev.xlabel xl, Ev.ylabel yl]
          ++ (if lg then [Ev.legendEv] else [])
          ++ [Ev.savefig (nm ++ "." ++ fmt) fmt], none) := by
  have hcast : ((0 : Nat) : Int) - 1 = -1 := by omega
  exact plot_color_and_label_offsets df nm fmt xl yl colors lg '0' 0 _ _
    rfl hcols
    (by rw [hcast]; exact pyIndex_neg_one colors hcolors)
    (by rw [hcast]; exact pyIndex_neg_one df.columns hcols)

/-- C10 witness: the theorem applied to `df4` with the default color list:
digit `0` draws column `D` against itself in `"blue"` with label `"C"`. -/
theorem plot_digit_zero_draws_first_column_witness :
    plot_df (some df4) "f" "svg" none none ["red", "green", "blue"] ['0'] false
      = ([Ev.figure,
          Ev.draw 0 (df4.rows.map (fun r => r.getD 0 ""))
            (df4.rows.map (fun r => r.getD 0 ""))
            ((["red", "green", "blue"] : List String).getD 2 "")
            (df4.columns.getD (df4.columns.length - 1) "")]
          ++ [Ev.xlabel none, Ev.ylabel none]
          ++ (if false then [Ev.legendEv] else [])
          ++ [Ev.savefig ("f" ++ "." ++ "svg") "svg"], none) :=
  plot_digit_zero_draws_first_column df4 "f" "svg" none none
    ["red", "green", "blue"] false (by decide) (by decide)

theorem plotLoop_err_of_color_overflow (df : DataFrame) (colors : List String)
    (idxs : List Nat) (d : Nat) (hmem : d ∈ idxs)
    (hguard : (d : Int) ≤ (df.columns.length : Int) - 1)
    (hcol : (colors.length : Int) ≤ (d : Int) - 1) :
    (plotLoop (some df) colors idxs).2.isSome = true := by
  induction idxs with
  | nil => simp at hmem
  | cons a rest ih =>
    by_cases hg : (a : Int) ≤ (df.columns.length : Int) - 1
    · cases hd : drawCall df colors a with
      | error e => simp [plotLoop, if_pos hg, hd]
      | ok ev =>
        rcases List.mem_cons.mp hmem with rfl | hmem'
        · have herr : drawCall df colors d = .error PyErr.indexError :=
            drawCall_eq_err_color df colors d PyErr.indexError (by omega)
              (pyIndex_err_of_ge colors ((d : Int) - 1) (by omega) hcol)
          rw [herr] at hd
          exact Except.noConfusion hd
        · simp only [plotLoop, if_pos hg, hd]
          exact ih hmem'
    · have hmem' : d ∈ rest := by
        rcases List.mem_cons.mp hmem with rfl | h
        · exact absurd hguard hg
        · exact h
      simp only [plotLoop, if_neg hg]
      exact ih hmem'

/-- C7: if some digit `d` of the column-selection order selects a drawable
column (`d` at most column count − 1) while `d - 1` is at least the length of
the color list, the renderer raises (an `IndexError` from `colors[d-1]`
propagates): the run ends with an exception, no output file is written, and
no series for `d` is drawn with a wrapped color. -/
theorem plot_color_overflow_errors (df : DataFrame) (nm fmt : String)
    (xl yl : Option String) (colors : List String) (order : List Char)
    (lg : Bool) (idxs : List Nat) (d : Nat)
    (hm : mapIntList order = .ok idxs) (hmem : d ∈ idxs)
    (hguard : (d : Int) ≤ (df.columns.length : Int) - 1)
    (hcol : (colors.length : Int) ≤ (d : Int) - 1) :
    (plot_df (some df) nm fmt xl yl colors order lg).2.isSome = true
  ∧ (∀ ev ∈ (plot_df (some df) nm fmt xl yl colors order lg).1,
      isSavefig ev = false)
  ∧ (∀ x y cv lv,
      Ev.draw d x y cv lv ∉ (plot_df (some df) nm fmt xl yl colors order lg).1) := by
  have hsome := plotLoop_err_of_color_overflow df colors idxs d hmem hguard hcol
  rcases hq : plotLoop (some df) colors idxs with ⟨evs, err⟩
  cases err with
  | none => rw [hq] at hsome; simp at hsome
  | some e =>
    have heq := plot_df_eq_err_loop (some df) nm fmt xl yl colors order lg
      idxs evs e hm hq
    refine ⟨by rw [heq]; rfl, ?_, ?_⟩
    · intro ev hev
      rw [heq] at hev
      rcases List.mem_cons.mp hev with rfl | hev'
      · rfl
      · have hev'' : ev ∈ (plotLoop (some df) colors idxs).1 := by
          rw [hq]; exact hev'
        obtain ⟨i, _, x, y, c, l, rfl, _⟩ :=
          plotLoop_mem (some df) colors idxs ev hev''
        rfl
    · intro x y cv lv hin
      rw [heq] at hin
      rcases List.mem_cons.mp hin with hfig | hin'
      · exact Ev.noConfusion hfig
      · have hin'' : Ev.draw d x y cv lv ∈ (plotLoop (some df) colors idxs).1 := by
          rw [hq]; exact hin'
        obtain ⟨i, _, x', y', c', l', hdraw, hcolok⟩ :=
          plotLoop_mem (some df) colors idxs _ hin''
        injection hdraw with h1 h2 h3 h4 h5
        subst h1
        have herr := pyIndex_err_of_ge colors ((d : Int) - 1) (by omega) hcol
        rw [herr] at hcolok
        exact Except.noConfusion hcolok

/-- C7 witness: the theorem applied to `df6` (six columns) with the default
three colors and order `"5"`: digit 5 is drawable but `colors[4]` is out of
range, so the run errors, writes nothing, and draws no series 5. -/
theorem plot_color_overflow_errors_witness :
    (plot_df (some df6) "f" "svg" none none ["red", "green", "blue"]
        ['5'] false).2.isSome = true
  ∧ (∀ ev ∈ (plot_df (some df6) "f" "svg" none none ["red", "green", "blue"]
        ['5'] false).1, isSavefig ev = false)
  ∧ (∀ x y cv lv,
      Ev.draw 5 x y cv lv ∉ (plot_df (some df6) "f" "svg" none none
        ["red", "green", "blue"] ['5'] false).1) :=
  plot_color_overflow_errors df6 "f" "svg" none none ["red", "green", "blue"]
    ['5'] false [5] 5 rfl (by decide) (by decide) (by decide)

/-- C6: for a valid tab-separated file — arbitrary first line, header line of
names, data rows of header width, at least one fully populated row — the
loader discards the first line, takes the second as the header, and returns
a table whose headers equal the header-line names, whose rows are exactly
the fully populated data rows in order (rows with a missing cell are
absent), and whose row count is the number of fully populated rows. -/
theorem load_txt_spec (l0 : List (Option String)) (names : List String)
    (dataRows : List (List (Option String)))
    (hlen : ∀ r ∈ dataRows, r.length = names.length)
    (_hpop : ∃ r ∈ dataRows, isFullRow r = true) :
    load_txt (.ok (l0 :: names.map some :: dataRows))
      = some { columns := names,
               rows := (dataRows.filter isFullRow).map
                 (fun r => r.map (fun c => c.getD "")) }
  ∧ ((dataRows.filter isFullRow).map
      (fun r => r.map (fun c => c.getD ""))).length
      = dataRows.countP isFullRow := by
  constructor
  · simp only [load_txt, List.drop_succ_cons, List.drop_zero]
    rw [if_neg (by simp; intro x hx; exact Nat.le_of_eq (hlen x hx))]
    have hpad : dataRows.map (fun r => r ++ List.replicate
        ((names.map some).length - r.length) (none : Option String))
        = dataRows := by
      have hid : ∀ r ∈ dataRows, r ++ List.replicate
          ((names.map some).length - r.length) (none : Option String) = r := by
        intro r hr
        rw [List.length_map, hlen r hr, Nat.sub_self, List.replicate_zero,
          List.append_nil]
      calc dataRows.map (fun r => r ++ List.replicate
            ((names.map some).length - r.length) (none : Option String))
          = dataRows.map (fun r => r) := List.map_congr_left hid
        _ = dataRows := List.map_id' dataRows
    rw [hpad]
    have hcols : (names.map some).map (fun c => c.getD "Unnamed") = names := by
      rw [List.map_map]
      simp [Function.comp_def]
    rw [hcols]
  · rw [List.length_map]
    exact (dataRows.countP_eq_length_filter isFullRow).symm

/-- C6 witness: a file with a title line, header `Distance A`, one full data
row and one row with a missing cell loads to a table with exactly the full
row. -/
theorem load_txt_spec_witness :
    load_txt (.ok ([some "t"] :: (["Distance", "A"].map some) ::
        [[some "1", some "2"], [some "3", none]]))
      = some { columns := ["Distance", "A"], rows := [["1", "2"]] } := by
  have h := load_txt_spec [some "t"] ["Distance", "A"]
    [[some "1", some "2"], [some "3", none]] (by decide) (by decide)
  rw [h.1]
  decide

/-- C8: the discoverer returns exactly the `root/name` joins of the walked
`(root, files)` pairs whose file name ends in `.txt`, in walk order (the
`flatMap` equality); an inaccessible root (`none`) yields `[]`; a walk with
no `.txt` names yields `[]`; and an empty discovery result makes the whole
batch a no-op — no events, no images, no error. -/
theorem get_txt_files_spec (entries : List (String × List String))
    (content : String → FileContent) (fmt : String) (xl yl : Option String)
    (colors : List String) (order : List Char) (lg : Bool) :
    (∀ p, p ∈ get_txt_files (some entries) ↔
      ∃ pr ∈ entries, ∃ f ∈ pr.2, pyEndsWith f ".txt" = true
        ∧ p = pathJoin pr.1 f)
  ∧ get_txt_files (some entries)
      = entries.flatMap
          (fun pr => (pr.2.filter (fun f => pyEndsWith f ".txt")).map
            (fun f => pathJoin pr.1 f))
  ∧ get_txt_files none = []
  ∧ ((∀ pr ∈ entries, ∀ f ∈ pr.2, pyEndsWith f ".txt" = false) →
      get_txt_files (some entries) = [])
  ∧ (get_txt_files (some entries) = [] →
      main (some entries) content fmt xl yl colors order lg = ([], none)) := by
  have hflat : ∀ es : List (String × List String), gatherTxt es
      = es.flatMap (fun pr => (pr.2.filter (fun f => pyEndsWith f ".txt")).map
          (fun f => pathJoin pr.1 f)) := by
    intro es
    induction es with
    | nil => rfl
    | cons pr rest ih =>
      cases pr with
      | mk root files => simp [gatherTxt, ih]
  refine ⟨?_, hflat entries, rfl, ?_, ?_⟩
  · intro p
    show p ∈ gatherTxt entries ↔ _
    rw [hflat entries]
    simp only [List.mem_flatMap, List.mem_map, List.mem_filter]
    constructor
    · rintro ⟨pr, hpr, f, ⟨hf, he⟩, hj⟩
      exact ⟨pr, hpr, f, hf, he, hj.symm⟩
    · rintro ⟨pr, hpr, f, hf, he, hp⟩
      exact ⟨pr, hpr, f, ⟨hf, he⟩, hp.symm⟩
  · intro hnone
    show gatherTxt entries = []
    rw [hflat entries]
    rw [List.flatMap_eq_nil_iff]
    intro pr hpr
    rw [List.map_eq_nil_iff, List.filter_eq_nil_iff]
    intro f hf
    simp [hnone pr hpr f hf]
  · intro hempty
    unfold main
    rw [hempty]
    rfl

/-- C8 witness: a walked directory holding only `b.csv` discovers nothing,
and the batch over it performs no events and raises nothing. -/
theorem get_txt_files_spec_witness :
    main (some [("r", ["b.csv"])]) (fun _ => FileContent.notFound) "svg" none
        none [] [] false = ([], none) :=
  (get_txt_files_spec [("r", ["b.csv"])] (fun _ => FileContent.notFound) "svg"
    none none [] [] false).2.2.2.2 (by decide)

end Colocgraph
